import Mathlib

/-!
# ChatterTV tiered upload-and-delivery engine: a shallow embedding

This file embeds the upload-strategy selection, multipart-upload
orchestration, dual-write persistence, S3 configuration gating and HTTP
range-streaming logic of the ChatterTV repository (client upload modal,
`server/routes.ts`, `server/s3.ts`, `client/src/lib/deployment-config.ts`)
as executable Lean definitions, and proves the specification claims about
them.
-/

/-- One mebibyte, the `1024 * 1024` factor used throughout the source. -/
def MiB : Nat := 1024 * 1024

/-- `DEPLOYMENT_CONFIG.maxFileSize` from `client/src/lib/deployment-config.ts`:
500 MiB. -/
def deploymentMaxFileSize : Nat := 500 * MiB

/-- `DEPLOYMENT_CONFIG.disableMultipartUploads` from
`client/src/lib/deployment-config.ts` (which mirrors the server config):
multipart uploads are NOT disabled. -/
def disableMultipartUploads : Bool := false

/-- `MEDIUM_FILE_THRESHOLD` in `uploadMutation.mutationFn`: 50 MiB. -/
def MEDIUM_FILE_THRESHOLD : Nat := 50 * MiB

/-- `LARGE_FILE_THRESHOLD` in `uploadMutation.mutationFn`: 150 MiB. -/
def LARGE_FILE_THRESHOLD : Nat := 150 * MiB

/-- `MULTIPART_THRESHOLD` in `uploadDirectlyToS3`: 100 MiB. -/
def MULTIPART_THRESHOLD : Nat := 100 * MiB

/-- The three transfer strategies of the client upload modal:
standard upload through the server (`/api/videos`), server-assisted
direct-to-S3 upload (`uploadDirectlyToS3`), and true browser-direct
upload (`trueBrowserDirectUpload`). -/
inductive Strategy
  | serverRelayed
  | serverAssistedDirect
  | browserDirectMultipart
deriving DecidableEq, Repr

/-- The strategy `uploadMutation.mutationFn` tries first, determined solely
by the selected file's size: `size > LARGE_FILE_THRESHOLD` tries the true
browser-direct upload, `size > MEDIUM_FILE_THRESHOLD` the server-assisted
direct upload, anything else the standard server upload. -/
def chosenStrategy (size : Nat) : Strategy :=
  if size > LARGE_FILE_THRESHOLD then .browserDirectMultipart
  else if size > MEDIUM_FILE_THRESHOLD then .serverAssistedDirect
  else .serverRelayed

/-- `uploadDirectlyToS3` takes its multipart branch exactly when
`file.size > MULTIPART_THRESHOLD`. -/
def isMultipartUpload (size : Nat) : Bool := size > MULTIPART_THRESHOLD

/-- Part size chosen by `uploadDirectlyToS3` step 2: 25 MiB above 500 MiB,
10 MiB above 100 MiB, otherwise the 5 MiB base part size. -/
def partSizeFor (fileSize : Nat) : Nat :=
  if fileSize > 500 * MiB then 25 * MiB
  else if fileSize > 100 * MiB then 10 * MiB
  else 5 * MiB

/-- `Math.ceil(file.size / partSize)` from `uploadDirectlyToS3`. -/
def numPartsFor (fileSize : Nat) : Nat :=
  (fileSize + partSizeFor fileSize - 1) / partSizeFor fileSize

/-- Structured rendering of the errors thrown by the client upload module. -/
inductive UploadError
  /-- `File too large for multipart upload: would require N parts
  (maximum is 10,000)` -/
  | tooManyParts (numParts : Nat)
  /-- `Upload incomplete: Missing K parts out of N` -/
  | incompleteUpload (missingCount : Nat) (expected : Nat)
  /-- `No ETag received for part N` -/
  | noETag (partNumber : Nat)
deriving DecidableEq, Repr

/-- The multipart plan computed by `uploadDirectlyToS3` before any part is
sent: part size and part count, or the fatal part-count-ceiling error
(`numParts > 10000`), which is thrown before the part-upload loop and is
not subject to the per-part retry policy. -/
def planMultipart (fileSize : Nat) : Except UploadError (Nat × Nat) :=
  let partSize := partSizeFor fileSize
  let numParts := numPartsFor fileSize
  if numParts > 10000 then .error (.tooManyParts numParts)
  else .ok (partSize, numParts)

/-- Number of part PUT requests the multipart branch attempts: the upload
loop is reached only when `planMultipart` succeeded, so a plan error sends
zero parts. -/
def multipartPartPutsAttempted (fileSize : Nat) : Nat :=
  match planMultipart fileSize with
  | .error _ => 0
  | .ok (_, numParts) => numParts

/-- Signed upload URLs fetched from the server during a successful run of
`uploadDirectlyToS3`: the single-PUT branch fetches one presigned URL from
`/api/upload-url`; the multipart branch fetches one URL from
`/api/multipart-upload/part-url` per part. -/
def signedUploadUrlsIssued (size : Nat) : Nat :=
  if isMultipartUpload size then numPartsFor size else 1

/-- PUT requests the browser makes to the object store during a successful
run of `uploadDirectlyToS3`: one whole-file PUT in the single-PUT branch,
one PUT per part in the multipart branch. -/
def objectStorePutRequests (size : Nat) : Nat :=
  if isMultipartUpload size then numPartsFor size else 1

/-- Success or failure of each tier's transfer, abstracting the network. -/
structure StrategyOutcomes where
  browserDirectSucceeds : Bool
  serverAssistedSucceeds : Bool
  serverRelayedSucceeds : Bool
deriving DecidableEq, Repr

/-- Overall result of `uploadMutation.mutationFn`. -/
inductive UploadResult
  | completed (s : Strategy)
  | terminalError
deriving DecidableEq, Repr

/-- The strategies `uploadMutation.mutationFn` attempts, in order, for a
file of the given size (at most `deploymentMaxFileSize`): a failure of the
true browser-direct upload falls through into the `size >
MEDIUM_FILE_THRESHOLD` branch, a failure of the server-assisted upload
falls through to the standard server upload, whose failure rejects the
mutation. -/
def attemptedStrategies (size : Nat) (o : StrategyOutcomes) : List Strategy :=
  if size > LARGE_FILE_THRESHOLD then
    if o.browserDirectSucceeds then [.browserDirectMultipart]
    else if o.serverAssistedSucceeds then
      [.browserDirectMultipart, .serverAssistedDirect]
    else [.browserDirectMultipart, .serverAssistedDirect, .serverRelayed]
  else if size > MEDIUM_FILE_THRESHOLD then
    if o.serverAssistedSucceeds then [.serverAssistedDirect]
    else [.serverAssistedDirect, .serverRelayed]
  else [.serverRelayed]

/-- The result `uploadMutation.mutationFn` resolves or rejects with, for a
file of the given size: only a failure of the final standard server upload
is a terminal error (surfaced by the mutation's `onError` toast). -/
def mutationResult (size : Nat) (o : StrategyOutcomes) : UploadResult :=
  if size > LARGE_FILE_THRESHOLD ∧ o.browserDirectSucceeds then
    .completed .browserDirectMultipart
  else if size > MEDIUM_FILE_THRESHOLD ∧ o.serverAssistedSucceeds then
    .completed .serverAssistedDirect
  else if o.serverRelayedSucceeds then .completed .serverRelayed
  else .terminalError

/-- The tier below a given strategy in the fallback chain. -/
def nextTier : Strategy → Strategy
  | .browserDirectMultipart => .serverAssistedDirect
  | .serverAssistedDirect => .serverRelayed
  | .serverRelayed => .serverRelayed

/-- Whether a given strategy's transfer succeeds under the outcomes. -/
def succeedsUnder (o : StrategyOutcomes) : Strategy → Bool
  | .browserDirectMultipart => o.browserDirectSucceeds
  | .serverAssistedDirect => o.serverAssistedSucceeds
  | .serverRelayed => o.serverRelayedSucceeds

/-- The environment configuration read by `server/s3.ts`: AWS credentials,
region and bucket. -/
structure S3Env where
  awsAccessKeyId : Option String
  awsSecretAccessKey : Option String
  awsRegion : Option String
  awsS3Bucket : Option String
deriving DecidableEq, Repr

/-- `checkS3Configuration` from `server/s3.ts`: "A simplified check that
always returns false to use local storage" — it ignores the environment
entirely and returns `false`. -/
def checkS3Configuration (_env : S3Env) : Bool := false

/-- `export const USE_S3 = checkS3Configuration()` from `server/s3.ts`. -/
def USE_S3 (env : S3Env) : Bool := checkS3Configuration env

/-- The part of an HTTP JSON response the S3-gating claims talk about:
status code and the `error` field. -/
structure ApiResponse where
  status : Nat
  errorTag : Option String
deriving DecidableEq, Repr

/-- The `400 { error: "S3 not configured", ... }` response every S3-gated
endpoint returns when `USE_S3` is false. -/
def s3NotConfigured : ApiResponse :=
  { status := 400, errorTag := some "S3 not configured" }

/-- A generic successful response; the post-gate body of each handler is
elided (it is unreachable in this build because `USE_S3` is constantly
false). -/
def handlerProceeds : ApiResponse := { status := 200, errorTag := none }

/-- `GET /api/upload-url` (routes.ts 135-177): gate on `USE_S3`. -/
def uploadUrlHandler (env : S3Env) : ApiResponse :=
  if USE_S3 env then handlerProceeds else s3NotConfigured

/-- `POST /api/multipart-upload/init` (routes.ts 180-238): a production
check on `disableMultipartUploads` (false in the deployed config) comes
first, then the `USE_S3` gate. -/
def multipartInitHandler (env : S3Env) (isProd : Bool) : ApiResponse :=
  if isProd && disableMultipartUploads then
    { status := 400, errorTag := some "Multipart uploads disabled in deployment" }
  else if USE_S3 env then handlerProceeds
  else s3NotConfigured

/-- `GET /api/multipart-upload/part-url` (routes.ts 241-281): gate on
`USE_S3`. -/
def partUrlHandler (env : S3Env) : ApiResponse :=
  if USE_S3 env then handlerProceeds else s3NotConfigured

/-- `POST /api/multipart-upload/complete` (routes.ts 284-318): gate on
`USE_S3`; `completeMultipartUpload` (the backend finalize primitive) is
called only past the gate. -/
def multipartCompleteHandler (env : S3Env) : ApiResponse :=
  if USE_S3 env then handlerProceeds else s3NotConfigured

/-- Whether `POST /api/multipart-upload/complete` reaches the backend
finalize primitive `completeMultipartUpload`. -/
def serverFinalizeInvoked (env : S3Env) : Bool := USE_S3 env

/-- `POST /api/direct-upload/config` (routes.ts 324-364): gate on `USE_S3`. -/
def directUploadConfigHandler (env : S3Env) : ApiResponse :=
  if USE_S3 env then handlerProceeds else s3NotConfigured

/-- `POST /api/direct-upload/complete` (routes.ts 367-402): gate on `USE_S3`. -/
def directUploadCompleteHandler (env : S3Env) : ApiResponse :=
  if USE_S3 env then handlerProceeds else s3NotConfigured

/-- `POST /api/direct-upload/register` (routes.ts 405-477): gate on `USE_S3`. -/
def directUploadRegisterHandler (env : S3Env) : ApiResponse :=
  if USE_S3 env then handlerProceeds else s3NotConfigured

/-- `POST /api/videos/s3` (routes.ts 480-573): gate on `USE_S3`. -/
def videosS3Handler (env : S3Env) : ApiResponse :=
  if USE_S3 env then handlerProceeds else s3NotConfigured

/-- A canonical stored-object reference: a local filename under
`uploads/`, or a remote S3 object key. -/
inductive CanonicalRef
  | localFile (name : String)
  | remoteKey (key : String)
deriving DecidableEq, Repr

/-- Outcome of one ingest through `processVideoUpload` (routes.ts
1349-1448). -/
structure IngestOutcome where
  /-- Multer already wrote the file to the local `uploads/` directory, and
  the handler never removes it ("we keep them as backups even when S3
  upload succeeds", routes.ts 1435-1436). -/
  localCopySaved : Bool
  /-- The `filePath` recorded in the database. -/
  canonical : CanonicalRef
  httpStatus : Nat
deriving DecidableEq, Repr

/-- `processVideoUpload` after multer stored the incoming file locally
under `filename`. `remoteWrite` is the result `uploadFileToS3` would
produce (`.ok url` or `.error msg`); it is only consulted when `useS3` is
true, its failure is caught, logged, and the already-set local paths are
kept ("Failed to upload to S3, falling back to local storage"), and the
handler responds 201 in both cases. -/
def processVideoUpload (filename : String) (useS3 : Bool)
    (remoteWrite : Except String String) : IngestOutcome :=
  let videoPath : CanonicalRef :=
    if useS3 then
      match remoteWrite with
      | .ok _ => .remoteKey ("uploads/" ++ filename)
      | .error _ => .localFile filename
    else .localFile filename
  { localCopySaved := true, canonical := videoPath, httpStatus := 201 }

/-- A recorded multipart part: part number and the (quote-stripped) ETag
pushed by `uploadSinglePart` in `uploadDirectlyToS3`. -/
structure PartResult where
  partNumber : Nat
  eTag : String
deriving DecidableEq, Repr

/-- `uploadSinglePart`'s recording step: the `ETag` response header is
required (`if (!etag) throw`, where JS treats a missing header and the
empty string as falsy), then recorded with its quotes stripped. -/
def recordPart (partNumber : Nat) (etagHeader : Option String) :
    Except UploadError PartResult :=
  match etagHeader with
  | none => .error (.noETag partNumber)
  | some e =>
    if e = "" then .error (.noETag partNumber)
    else .ok { partNumber := partNumber, eTag := ⟨e.data.filter (· ≠ '"')⟩ }

/-- The missing-part scan in `uploadDirectlyToS3` step 4: every `i` in
`1..numParts` that is not among the recorded part numbers. -/
def missingPartNumbers (recorded : List Nat) (numParts : Nat) : List Nat :=
  (List.range' 1 numParts).filter (fun i => decide (i ∉ recorded))

/-- The verification `uploadDirectlyToS3` performs before calling
`/api/multipart-upload/complete`: `parts.length !== numParts` is the fatal
`Upload incomplete: Missing K parts out of N` error. -/
def verifyAllParts (parts : List PartResult) (numParts : Nat) :
    Except UploadError Unit :=
  if parts.length = numParts then .ok ()
  else .error (.incompleteUpload (numParts - parts.length) numParts)

/-- The completion step of `uploadDirectlyToS3`: the fetch of
`/api/multipart-upload/complete` (which is what can reach the backend
finalize primitive) happens only after `verifyAllParts` passes; `.ok true`
means the complete endpoint was invoked. -/
def clientComplete (parts : List PartResult) (numParts : Nat) :
    Except UploadError Bool :=
  match verifyAllParts parts numParts with
  | .error e => .error e
  | .ok _ => .ok true

/-- Part-URL expiry passed to `getMultipartPresignedUrl` (routes.ts 262):
`60 * 60 * 3`, i.e. 3 hours. -/
def partUrlExpirySeconds : Nat := 60 * 60 * 3

/-- Expiry of the presigned playback URL `GET /videos/:filename` redirects
to (routes.ts 714): 3600 seconds, i.e. 1 hour. -/
def videoPlaybackExpirySeconds : Nat := 3600

/-- Expiry of the presigned thumbnail URL (routes.ts 824):
`7 * 24 * 3600`, i.e. 7 days. -/
def thumbnailExpirySeconds : Nat := 7 * 24 * 3600

/-- How `GET /videos/:filename` answers a delivery request. -/
inductive VideoDelivery
  | localStream (filename : String)
  | redirect (key : String) (ttlSeconds : Nat)
  | notFound
deriving DecidableEq, Repr

/-- `GET /videos/:filename` (routes.ts 690-732): serve the local file when
it exists at `uploads/<filename>`; otherwise, when `USE_S3` is on, check
`fileExistsInS3 ("uploads/" ++ filename)` (`s3Check`; `.error` models the
caught-and-logged S3 exception) and redirect to a presigned URL with a
1-hour expiry when it exists; otherwise 404 "Video not found". -/
def videoRouteResolve (localExists : Bool) (useS3flag : Bool)
    (s3Check : Except String Bool) (filename : String) : VideoDelivery :=
  if localExists then .localStream filename
  else if useS3flag then
    match s3Check with
    | .ok true => .redirect ("uploads/" ++ filename) videoPlaybackExpirySeconds
    | .ok false => .notFound
    | .error _ => .notFound
  else .notFound

/-- How `GET /thumbnails/api/:filename` answers. -/
inductive ThumbDelivery
  | localFile (name : String)
  | redirect (key : String) (ttlSeconds : Nat)
  | defaultThumbnail
  | placeholderSvg
deriving DecidableEq, Repr

/-- The S3 key the thumbnail route probes: the filename, prefixed with
`thumbnails/` unless already so prefixed (routes.ts 819). -/
def thumbKey (filename : String) : String :=
  if filename.startsWith "thumbnails/" then filename
  else "thumbnails/" ++ filename

/-- `GET /thumbnails/api/:filename` for a filename other than
`default-thumbnail.jpg` (routes.ts 804-855; the special branch for
requesting the default thumbnail itself, 752-802, is elided): local file
if present, else a 7-day presigned redirect if the key exists in S3, else
the default thumbnail file if present, else an inline SVG placeholder. -/
def thumbnailRouteResolve (localExists : Bool) (useS3flag : Bool)
    (s3Check : Except String Bool) (defaultExists : Bool)
    (filename : String) : ThumbDelivery :=
  if localExists then .localFile filename
  else
    match useS3flag, s3Check with
    | true, .ok true => .redirect (thumbKey filename) thumbnailExpirySeconds
    | _, _ => if defaultExists then .defaultThumbnail else .placeholderSvg

/-- Does `pat` occur at the front of `l`? -/
def startsWithL : List Char → List Char → Bool
  | [], _ => true
  | _ :: _, [] => false
  | p :: ps, c :: cs => p = c && startsWithL ps cs

/-- JS `s.replace(/pat/, "")` for a plain pattern: remove the first
occurrence of `pat`. -/
def dropFirstOcc (pat : List Char) : List Char → List Char
  | [] => []
  | c :: rest =>
    if startsWithL pat (c :: rest) then (c :: rest).drop pat.length
    else c :: dropFirstOcc pat rest

/-- JS `s.split("-")`. -/
def splitOnDash : List Char → List (List Char)
  | [] => [[]]
  | c :: rest =>
    let r := splitOnDash rest
    if c = '-' then [] :: r
    else
      match r with
      | [] => [[c]]
      | h :: t => (c :: h) :: t

/-- Whitespace skipped by JS `parseInt`. -/
def jsWs (c : Char) : Bool := c = ' ' || c = '\t' || c = '\n' || c = '\r'

/-- Accumulate a decimal value over digit characters. -/
def readDigits : List Char → Nat → Nat
  | [], acc => acc
  | c :: rest, acc => readDigits rest (acc * 10 + (c.toNat - 48))

/-- JS `parseInt(s, 10)`: skip leading whitespace, an optional sign, then
the longest run of leading decimal digits; `none` models `NaN` (no
digits). -/
def jsParseIntChars (s : List Char) : Option Int :=
  let t := s.dropWhile jsWs
  let sgn : Int := if t.headD 'x' = '-' then -1 else 1
  let u := if t.headD 'x' = '-' || t.headD 'x' = '+' then t.tail else t
  let ds := u.takeWhile Char.isDigit
  if ds.isEmpty then none else some (sgn * (readDigits ds 0 : Int))

/-- NaN-propagating subtraction on JS numbers (`none` = NaN). -/
def jsSub : Option Int → Option Int → Option Int
  | some a, some b => some (a - b)
  | _, _ => none

/-- NaN-propagating addition on JS numbers (`none` = NaN). -/
def jsAdd : Option Int → Option Int → Option Int
  | some a, some b => some (a + b)
  | _, _ => none

/-- The characters of `"bytes="`, the pattern stripped from the Range
header. -/
def bytesPat : List Char := "bytes=".data

/-- The response assembled by `streamLocalVideoFile` (routes.ts 993-1025):
status, the `Content-Range` template values `bytes <start>-<end>/<fileSize>`
when present, the `Content-Length` value, and the streamed bytes. -/
structure StreamResponse where
  status : Nat
  contentRangeHeader : Option (Option Int × Option Int × Nat)
  contentLength : Option Int
  body : List Nat
deriving DecidableEq, Repr

/-- `parts[0]` of the split Range header, parsed with `parseInt`. -/
def rangeStartOf (parts : List (List Char)) : Option Int :=
  jsParseIntChars (parts.headD [])

/-- `parts[1] ? parseInt(parts[1], 10) : fileSize - 1`: a missing or empty
(falsy) second token defaults to the last byte of the file. -/
def rangeEndOf (parts : List (List Char)) (fileSize : Nat) : Option Int :=
  match parts[1]? with
  | some p => if p.isEmpty then some ((fileSize : Int) - 1) else jsParseIntChars p
  | none => some ((fileSize : Int) - 1)

/-- The bytes a successfully constructed
`fs.createReadStream(path, { start, end })` delivers: offsets
`start..end` inclusive, clamped at end-of-file. This is the stream's data
path alone (empty for bounds that would not pass the constructor's
validation); the constructor's synchronous `ERR_OUT_OF_RANGE` throw is
modelled by `createReadStream` below. -/
def readStreamBytes (file : List Nat) (s e : Option Int) : List Nat :=
  match s, e with
  | some s, some e =>
    if 0 ≤ s ∧ s ≤ e then (file.drop s.toNat).take (e - s + 1).toNat
    else []
  | _, _ => []

/-- `streamLocalVideoFile` (routes.ts 993-1025), data path only: with a
Range header it strips `bytes=`, splits on `-`, parses start and end, and
assembles the 206 response with `Content-Range: bytes start-end/fileSize`
and `Content-Length: (end - start) + 1`; with no Range header, the 200
response with the whole file. The helper's own code installs no
validation of the parsed offsets against the file size and no 416 branch;
the Node runtime's synchronous stream-constructor validation — which in
the source fires at `fs.createReadStream` (routes.ts 1006) before
`res.writeHead(206, …)` (routes.ts 1008) — is modelled by
`streamLocalVideoFileChecked` below, and this unchecked variant agrees
with it whenever the constructor does not throw
(`streamLocalVideoFileChecked_ok`). -/
def streamLocalVideoFile (file : List Nat) (rangeHeader : Option (List Char)) :
    StreamResponse :=
  let fileSize := file.length
  match rangeHeader with
  | some range =>
    let parts := splitOnDash (dropFirstOcc bytesPat range)
    let s := rangeStartOf parts
    let e := rangeEndOf parts fileSize
    { status := 206,
      contentRangeHeader := some (s, e, fileSize),
      contentLength := jsAdd (jsSub e s) (some 1),
      body := readStreamBytes file s e }
  | none =>
    { status := 200,
      contentRangeHeader := none,
      contentLength := some (fileSize : Int),
      body := file }

/-- Node's `validateInteger(value, name, 0)` as the `fs.ReadStream`
constructor applies it to the `start` and `end` options: the value must
be an integer (NaN — `none` here — is not) and at least 0. -/
def validStreamBound : Option Int → Bool
  | none => false
  | some v => decide (0 ≤ v)

/-- The `fs.createReadStream(path, { start, end })` constructor including
its synchronous validation (Node `lib/internal/fs/streams.js`): `start`
is validated first, then `end`, then `start > end` throws
`ERR_OUT_OF_RANGE`; only then is the stream created, delivering
`readStreamBytes`. In the source this runs at routes.ts 1006, before
`res.writeHead(206, …)`. -/
def createReadStream (file : List Nat) (s e : Option Int) :
    Except String (List Nat) :=
  if validStreamBound s = false then
    .error "ERR_OUT_OF_RANGE: start"
  else if validStreamBound e = false then
    .error "ERR_OUT_OF_RANGE: end"
  else
    match s, e with
    | some sv, some ev =>
      if sv > ev then .error "ERR_OUT_OF_RANGE: start > end"
      else .ok (readStreamBytes file (some sv) (some ev))
    | _, _ => .error "ERR_OUT_OF_RANGE"

/-- `streamLocalVideoFile` with the stream construction modelled
faithfully: the parsed offsets go through `createReadStream` first, and
only if it does not throw is the 206 response assembled — matching the
source order (`fs.createReadStream` at routes.ts 1006 precedes
`res.writeHead(206, …)` at routes.ts 1008). `.error` is the constructor's
synchronous throw escaping the helper. -/
def streamLocalVideoFileChecked (file : List Nat)
    (rangeHeader : Option (List Char)) : Except String StreamResponse :=
  let fileSize := file.length
  match rangeHeader with
  | some range =>
    let parts := splitOnDash (dropFirstOcc bytesPat range)
    let s := rangeStartOf parts
    let e := rangeEndOf parts fileSize
    match createReadStream file s e with
    | .error err => .error err
    | .ok bytes =>
      .ok { status := 206,
            contentRangeHeader := some (s, e, fileSize),
            contentLength := jsAdd (jsSub e s) (some 1),
            body := bytes }
  | none =>
    .ok { status := 200,
          contentRangeHeader := none,
          contentLength := some (fileSize : Int),
          body := file }

/-- The 500 `Error processing video request` answer of the
`GET /videos/:filename` catch block (routes.ts 728-731); its text body is
elided. -/
def errorProcessingResponse : StreamResponse :=
  { status := 500, contentRangeHeader := none, contentLength := none,
    body := [] }

/-- The `GET /videos/:filename` handler around the local streaming path
(routes.ts 690-731) for a file that exists locally: a throw escaping
`streamLocalVideoFile` — in particular the stream constructor's
`ERR_OUT_OF_RANGE` — lands in the route's catch, which answers 500. -/
def videoRouteLocalStream (file : List Nat)
    (rangeHeader : Option (List Char)) : StreamResponse :=
  match streamLocalVideoFileChecked file rangeHeader with
  | .ok resp => resp
  | .error _ => errorProcessingResponse

/-! ## Helper lemmas -/

theorem startsWithL_self_append (p l : List Char) :
    startsWithL p (p ++ l) = true := by
  induction p with
  | nil => rfl
  | cons c cs ih => simp [startsWithL, ih]

theorem dropFirstOcc_self_append (p l : List Char) (hp : p ≠ []) :
    dropFirstOcc p (p ++ l) = l := by
  cases p with
  | nil => exact absurd rfl hp
  | cons c cs =>
    show dropFirstOcc (c :: cs) (c :: (cs ++ l)) = l
    rw [dropFirstOcc]
    have hsw : startsWithL (c :: cs) (c :: (cs ++ l)) = true :=
      startsWithL_self_append (c :: cs) l
    rw [if_pos hsw]
    simp [List.drop_left (c :: cs) l]

theorem splitOnDash_no_dash_append (l : List Char) (h : ∀ c ∈ l, c ≠ '-') :
    splitOnDash (l ++ ['-']) = [l, []] := by
  induction l with
  | nil => rfl
  | cons c cs ih =>
    have hc : c ≠ '-' := h c (by simp)
    have ih' := ih (fun x hx => h x (by simp [hx]))
    simp only [List.cons_append, splitOnDash, if_neg hc]
    rw [show (cs.append ['-'] : List Char) = cs ++ ['-'] from rfl, ih']

theorem takeWhile_of_all {p : Char → Bool} (l : List Char)
    (h : ∀ c ∈ l, p c = true) : l.takeWhile p = l := by
  induction l with
  | nil => rfl
  | cons c cs ih =>
    have hc := h c (by simp)
    simp [List.takeWhile_cons, hc, ih (fun x hx => h x (by simp [hx]))]

theorem jsParseIntChars_digits (l : List Char) (hne : l ≠ [])
    (hd : ∀ c ∈ l, c.isDigit = true) :
    jsParseIntChars l = some ((readDigits l 0 : Nat) : Int) := by
  cases l with
  | nil => exact absurd rfl hne
  | cons c cs =>
    have hc : c.isDigit = true := hd c (by simp)
    have hsp : c ≠ ' ' := by intro h; rw [h] at hc; exact absurd hc (by decide)
    have htb : c ≠ '\t' := by intro h; rw [h] at hc; exact absurd hc (by decide)
    have hnl : c ≠ '\n' := by intro h; rw [h] at hc; exact absurd hc (by decide)
    have hcr : c ≠ '\r' := by intro h; rw [h] at hc; exact absurd hc (by decide)
    have hmi : c ≠ '-' := by intro h; rw [h] at hc; exact absurd hc (by decide)
    have hpl : c ≠ '+' := by intro h; rw [h] at hc; exact absurd hc (by decide)
    have hws : jsWs c = false := by simp [jsWs, hsp, htb, hnl, hcr]
    have htw : (c :: cs).takeWhile Char.isDigit = c :: cs :=
      takeWhile_of_all (c :: cs) hd
    simp [jsParseIntChars, List.dropWhile_cons, hws, hmi, hpl, htw]

theorem mem_of_nodup_bounded_full (L : List Nat) (n : Nat)
    (hnd : L.Nodup) (hsub : ∀ x ∈ L, 1 ≤ x ∧ x ≤ n) (hlen : L.length = n) :
    ∀ i, 1 ≤ i → i ≤ n → i ∈ L := by
  intro i h1 h2
  have hsub' : L.toFinset ⊆ Finset.Icc 1 n := by
    intro x hx
    rw [List.mem_toFinset] at hx
    obtain ⟨a, b⟩ := hsub x hx
    exact Finset.mem_Icc.mpr ⟨a, b⟩
  have hcard : L.toFinset.card = n := by
    rw [List.toFinset_card_of_nodup hnd, hlen]
  have heq : L.toFinset = Finset.Icc 1 n :=
    Finset.eq_of_subset_of_card_le hsub' (by rw [hcard, Nat.card_Icc]; omega)
  have : i ∈ L.toFinset := by
    rw [heq]; exact Finset.mem_Icc.mpr ⟨h1, h2⟩
  exact List.mem_toFinset.mp this

theorem length_ne_of_missing (L : List Nat) (n : Nat)
    (hnd : L.Nodup) (hsub : ∀ x ∈ L, 1 ≤ x ∧ x ≤ n)
    (i : Nat) (h1 : 1 ≤ i) (h2 : i ≤ n) (hmiss : i ∉ L) :
    L.length ≠ n :=
  fun hlen => hmiss (mem_of_nodup_bounded_full L n hnd hsub hlen i h1 h2)

theorem createReadStream_ok_eq (file : List Nat) (s e : Option Int)
    (bytes : List Nat) (h : createReadStream file s e = Except.ok bytes) :
    readStreamBytes file s e = bytes := by
  cases s with
  | none => simp [createReadStream, validStreamBound] at h
  | some sv =>
    cases e with
    | none =>
      simp only [createReadStream, validStreamBound] at h
      split_ifs at h
    | some ev =>
      simp only [createReadStream, validStreamBound] at h
      split_ifs at h
      exact Except.ok.inj h

theorem streamLocalVideoFileChecked_ok (file : List Nat)
    (rangeHeader : Option (List Char)) (resp : StreamResponse)
    (h : streamLocalVideoFileChecked file rangeHeader = Except.ok resp) :
    streamLocalVideoFile file rangeHeader = resp := by
  cases rangeHeader with
  | none =>
    simp only [streamLocalVideoFileChecked] at h
    simp only [streamLocalVideoFile]
    exact Except.ok.inj h
  | some range =>
    simp only [streamLocalVideoFileChecked] at h
    rcases hcr : createReadStream file
        (rangeStartOf (splitOnDash (dropFirstOcc bytesPat range)))
        (rangeEndOf (splitOnDash (dropFirstOcc bytesPat range)) file.length)
      with err | bytes
    · rw [hcr] at h
      simp at h
    · rw [hcr] at h
      simp only [Except.ok.injEq] at h
      simp only [streamLocalVideoFile]
      rw [createReadStream_ok_eq file _ _ bytes hcr]
      exact h

/-! ## Claim theorems -/

/-- C1, counterexample: a 120 MiB file sits in the claimed
server-assisted tier (50 MiB < size ≤ 150 MiB) and is indeed uploaded via
the server-assisted strategy, but `uploadDirectlyToS3` switches to its
multipart branch above 100 MiB, so twelve signed part-upload URLs are
fetched and twelve PUTs are made — not the claimed single signed URL and
single whole-file PUT. -/
theorem c1_single_signed_url_counterexample :
    MEDIUM_FILE_THRESHOLD < 120 * MiB ∧ 120 * MiB ≤ LARGE_FILE_THRESHOLD ∧
    chosenStrategy (120 * MiB) = Strategy.serverAssistedDirect ∧
    signedUploadUrlsIssued (120 * MiB) = 12 ∧
    objectStorePutRequests (120 * MiB) = 12 ∧
    signedUploadUrlsIssued (120 * MiB) ≠ 1 := by decide

/-- C1, amended: the upload strategy is a function of file size alone —
size ≤ 50 MiB is server-relayed, 50 MiB < size ≤ 150 MiB is
server-assisted direct, 150 MiB < size is browser-direct — but within the
server-assisted tier only files of at most 100 MiB use a single signed
upload URL and a single whole-file PUT; above 100 MiB the server-assisted
upload is multipart and fetches one signed URL per part (more than one).
A 90 MiB upload does cause exactly one signed upload URL to be issued. -/
theorem c1_upload_strategy_amended (size : Nat) :
    (size ≤ MEDIUM_FILE_THRESHOLD → chosenStrategy size = Strategy.serverRelayed) ∧
    (MEDIUM_FILE_THRESHOLD < size → size ≤ LARGE_FILE_THRESHOLD →
      chosenStrategy size = Strategy.serverAssistedDirect) ∧
    (LARGE_FILE_THRESHOLD < size →
      chosenStrategy size = Strategy.browserDirectMultipart) ∧
    (MEDIUM_FILE_THRESHOLD < size → size ≤ MULTIPART_THRESHOLD →
      signedUploadUrlsIssued size = 1 ∧ objectStorePutRequests size = 1) ∧
    (MULTIPART_THRESHOLD < size → size ≤ LARGE_FILE_THRESHOLD →
      signedUploadUrlsIssued size = numPartsFor size ∧ 1 < numPartsFor size) ∧
    signedUploadUrlsIssued (90 * MiB) = 1 := by
  refine ⟨?_, ?_, ?_, ?_, ?_, by decide⟩
  · intro h
    simp only [chosenStrategy, MEDIUM_FILE_THRESHOLD, LARGE_FILE_THRESHOLD, MiB] at *
    split_ifs <;> first | rfl | omega
  · intro h1 h2
    simp only [chosenStrategy, MEDIUM_FILE_THRESHOLD, LARGE_FILE_THRESHOLD, MiB] at *
    split_ifs <;> first | rfl | omega
  · intro h
    simp only [chosenStrategy, MEDIUM_FILE_THRESHOLD, LARGE_FILE_THRESHOLD, MiB] at *
    split_ifs <;> first | omega | rfl
  · intro h1 h2
    have hm : isMultipartUpload size = false := by
      simp only [isMultipartUpload, MULTIPART_THRESHOLD, MiB] at *
      simp only [decide_eq_false_iff_not]
      omega
    constructor <;> simp [signedUploadUrlsIssued, objectStorePutRequests, hm]
  · intro h1 h2
    have hm : isMultipartUpload size = true := by
      simp only [isMultipartUpload, MULTIPART_THRESHOLD, MiB] at *
      simp only [decide_eq_true_eq]
      omega
    refine ⟨by simp [signedUploadUrlsIssued, hm], ?_⟩
    have hp : partSizeFor size = 10 * MiB := by
      simp only [partSizeFor, MULTIPART_THRESHOLD, LARGE_FILE_THRESHOLD, MiB] at *
      split_ifs <;> first | rfl | omega
    simp only [numPartsFor, hp, MULTIPART_THRESHOLD, LARGE_FILE_THRESHOLD, MiB] at *
    omega

/-- C1 witness: a 90 MiB file takes the server-assisted tier with exactly
one signed URL and one PUT. -/
theorem c1_upload_strategy_amended_witness :
    (MEDIUM_FILE_THRESHOLD < 90 * MiB ∧ 90 * MiB ≤ MULTIPART_THRESHOLD ∧
      90 * MiB ≤ LARGE_FILE_THRESHOLD) ∧
    chosenStrategy (90 * MiB) = Strategy.serverAssistedDirect ∧
    signedUploadUrlsIssued (90 * MiB) = 1 ∧
    objectStorePutRequests (90 * MiB) = 1 :=
  ⟨⟨by decide, by decide, by decide⟩,
   (c1_upload_strategy_amended (90 * MiB)).2.1 (by decide) (by decide),
   ((c1_upload_strategy_amended (90 * MiB)).2.2.2.1 (by decide) (by decide)).1,
   ((c1_upload_strategy_amended (90 * MiB)).2.2.2.1 (by decide) (by decide)).2⟩

/-- C2: in the browser-direct tier (> 150 MiB), a failure of the true
browser-direct upload falls back to the server-assisted direct upload and
a failure of that falls back to the server-relayed upload; whenever a
non-relayed strategy is attempted and fails, the next-safer tier is also
attempted, and the mutation rejects with a terminal error only when the
server-relayed upload itself was attempted and failed. -/
theorem c2_fallback_chain (size : Nat) (o : StrategyOutcomes) :
    (LARGE_FILE_THRESHOLD < size → o.browserDirectSucceeds = false →
      Strategy.serverAssistedDirect ∈ attemptedStrategies size o ∧
      (o.serverAssistedSucceeds = false →
        Strategy.serverRelayed ∈ attemptedStrategies size o)) ∧
    (Strategy.browserDirectMultipart ∈ attemptedStrategies size o →
      o.browserDirectSucceeds = false →
      Strategy.serverAssistedDirect ∈ attemptedStrategies size o) ∧
    (Strategy.serverAssistedDirect ∈ attemptedStrategies size o →
      o.serverAssistedSucceeds = false →
      Strategy.serverRelayed ∈ attemptedStrategies size o) ∧
    (mutationResult size o = UploadResult.terminalError →
      Strategy.serverRelayed ∈ attemptedStrategies size o ∧
      o.serverRelayedSucceeds = false) ∧
    (o.serverRelayedSucceeds = true →
      mutationResult size o ≠ UploadResult.terminalError) := by
  obtain ⟨bd, sa, sr⟩ := o
  by_cases h1 : size > LARGE_FILE_THRESHOLD
  · have h2 : size > MEDIUM_FILE_THRESHOLD := by
      simp only [gt_iff_lt, LARGE_FILE_THRESHOLD, MEDIUM_FILE_THRESHOLD, MiB] at *
      omega
    cases bd <;> cases sa <;> cases sr <;>
      simp [attemptedStrategies, mutationResult, h1, h2]
  · by_cases h2 : size > MEDIUM_FILE_THRESHOLD
    · cases bd <;> cases sa <;> cases sr <;>
        simp [attemptedStrategies, mutationResult, h1, h2]
    · cases bd <;> cases sa <;> cases sr <;>
        simp [attemptedStrategies, mutationResult, h1, h2]

/-- C2 witness: for a 200 MiB file whose browser-direct and
server-assisted transfers both fail, both lower tiers are attempted, and
with all three failing the result is the terminal error. -/
theorem c2_fallback_chain_witness :
    Strategy.serverAssistedDirect ∈
      attemptedStrategies (200 * MiB) ⟨false, false, false⟩ ∧
    Strategy.serverRelayed ∈
      attemptedStrategies (200 * MiB) ⟨false, false, false⟩ ∧
    (Strategy.serverRelayed ∈
        attemptedStrategies (200 * MiB) ⟨false, false, false⟩ ∧
      (false : Bool) = false) :=
  ⟨((c2_fallback_chain (200 * MiB) ⟨false, false, false⟩).1 (by decide) rfl).1,
   ((c2_fallback_chain (200 * MiB) ⟨false, false, false⟩).1 (by decide) rfl).2 rfl,
   (c2_fallback_chain (200 * MiB) ⟨false, false, false⟩).2.2.2.1 (by decide)⟩

/-- C3: every ingest through `processVideoUpload` keeps the local copy
multer wrote and responds 201 regardless of the remote attempt; when the
remote write is attempted and succeeds, the remote key `uploads/<name>`
becomes the canonical `filePath`; when the remote write fails — or is not
attempted at all — the local filename stays canonical and the upload still
succeeds. So after every successful upload a copy exists in local
storage. -/
theorem c3_dual_write_policy (filename : String) (useS3 : Bool)
    (remoteWrite : Except String String) :
    (processVideoUpload filename useS3 remoteWrite).localCopySaved = true ∧
    (processVideoUpload filename useS3 remoteWrite).httpStatus = 201 ∧
    (∀ url, useS3 = true → remoteWrite = Except.ok url →
      (processVideoUpload filename useS3 remoteWrite).canonical =
        CanonicalRef.remoteKey ("uploads/" ++ filename)) ∧
    (∀ msg, remoteWrite = Except.error msg →
      (processVideoUpload filename useS3 remoteWrite).canonical =
        CanonicalRef.localFile filename) ∧
    (useS3 = false →
      (processVideoUpload filename useS3 remoteWrite).canonical =
        CanonicalRef.localFile filename) := by
  cases useS3 <;> cases remoteWrite <;>
    simp [processVideoUpload]

/-- C3 witness: with the remote store down the upload of `v.mp4` still
succeeds with the local path canonical; with the store healthy the remote
key is canonical; the local copy is kept in both cases. -/
theorem c3_dual_write_policy_witness :
    (processVideoUpload "v.mp4" true (Except.error "S3 down")).localCopySaved
      = true ∧
    (processVideoUpload "v.mp4" true (Except.error "S3 down")).httpStatus
      = 201 ∧
    (processVideoUpload "v.mp4" true (Except.error "S3 down")).canonical
      = CanonicalRef.localFile "v.mp4" ∧
    (processVideoUpload "v.mp4" true (Except.ok "https://bx/k")).canonical
      = CanonicalRef.remoteKey ("uploads/" ++ "v.mp4") :=
  ⟨(c3_dual_write_policy "v.mp4" true (Except.error "S3 down")).1,
   (c3_dual_write_policy "v.mp4" true (Except.error "S3 down")).2.1,
   (c3_dual_write_policy "v.mp4" true
      (Except.error "S3 down")).2.2.2.1 "S3 down" rfl,
   (c3_dual_write_policy "v.mp4" true
      (Except.ok "https://bx/k")).2.2.1 "https://bx/k" rfl rfl⟩

/-- C4: `checkS3Configuration` ignores its environment and returns false
for every configuration, so `USE_S3` is constantly false, every S3-gated
endpoint — upload-URL issuance, multipart init/part-url/complete,
direct-upload config/complete/register, and S3 video registration —
unconditionally answers with the 400 `S3 not configured` response, and
every ingest that does happen records a local canonical path. -/
theorem c4_s3_disabled_everywhere (env : S3Env) (isProd : Bool)
    (filename : String) (remoteWrite : Except String String) :
    checkS3Configuration env = false ∧
    USE_S3 env = false ∧
    s3NotConfigured.status = 400 ∧
    s3NotConfigured.errorTag = some "S3 not configured" ∧
    uploadUrlHandler env = s3NotConfigured ∧
    multipartInitHandler env isProd = s3NotConfigured ∧
    partUrlHandler env = s3NotConfigured ∧
    multipartCompleteHandler env = s3NotConfigured ∧
    directUploadConfigHandler env = s3NotConfigured ∧
    directUploadCompleteHandler env = s3NotConfigured ∧
    directUploadRegisterHandler env = s3NotConfigured ∧
    videosS3Handler env = s3NotConfigured ∧
    (processVideoUpload filename (USE_S3 env) remoteWrite).canonical =
      CanonicalRef.localFile filename := by
  cases isProd <;>
    simp [checkS3Configuration, USE_S3, uploadUrlHandler, multipartInitHandler,
      partUrlHandler, multipartCompleteHandler, directUploadConfigHandler,
      directUploadCompleteHandler, directUploadRegisterHandler,
      videosS3Handler, processVideoUpload, disableMultipartUploads,
      s3NotConfigured]

/-- C5: for a multipart session expecting `n` parts, where the recorded
part numbers are pairwise distinct and drawn from `1..n` (as the
batched `uploadSinglePart` calls guarantee), the completion endpoint — the
only path to the backend finalize primitive — is invoked only when every
one of the `n` part numbers has been recorded; if any single part number
is missing, `clientComplete` fails with the `Upload incomplete` error and
the missing-part scan names the gap. Server-side, `USE_S3` being false
means the finalize primitive behind `/api/multipart-upload/complete` is
never reached at all. -/
theorem c5_complete_requires_all_parts (parts : List PartResult) (n : Nat)
    (hnd : (parts.map PartResult.partNumber).Nodup)
    (hrange : ∀ p ∈ parts, 1 ≤ p.partNumber ∧ p.partNumber ≤ n) :
    (∀ r, clientComplete parts n = Except.ok r →
      ∀ i, 1 ≤ i → i ≤ n → i ∈ parts.map PartResult.partNumber) ∧
    (∀ i, 1 ≤ i → i ≤ n → i ∉ parts.map PartResult.partNumber →
      clientComplete parts n =
        Except.error (UploadError.incompleteUpload (n - parts.length) n) ∧
      i ∈ missingPartNumbers (parts.map PartResult.partNumber) n) ∧
    (∀ env, serverFinalizeInvoked env = false) := by
  have hsub : ∀ x ∈ parts.map PartResult.partNumber, 1 ≤ x ∧ x ≤ n := by
    intro x hx
    rw [List.mem_map] at hx
    obtain ⟨p, hp, hpx⟩ := hx
    exact hpx ▸ hrange p hp
  have hlenmap : (parts.map PartResult.partNumber).length = parts.length :=
    List.length_map _ _
  refine ⟨?_, ?_, fun env => rfl⟩
  · intro r hok i h1 h2
    have hlen : parts.length = n := by
      by_contra hne
      simp [clientComplete, verifyAllParts, hne] at hok
    exact mem_of_nodup_bounded_full (parts.map PartResult.partNumber) n hnd
      hsub (by rw [hlenmap, hlen]) i h1 h2
  · intro i h1 h2 hmiss
    have hne : parts.length ≠ n := by
      intro hlen
      exact length_ne_of_missing (parts.map PartResult.partNumber) n hnd
        hsub i h1 h2 hmiss (by rw [hlenmap, hlen])
    refine ⟨by simp [clientComplete, verifyAllParts, hne], ?_⟩
    have hr : i ∈ List.range' 1 n := by
      rw [List.mem_range'_1]
      omega
    simp only [missingPartNumbers, List.mem_filter, decide_eq_true_eq]
    exact ⟨hr, hmiss⟩

/-- C5 witness: a session expecting 5 parts with part 3 never recorded
fails `clientComplete` with the incomplete-upload error, and the
missing-part scan reports part 3. -/
theorem c5_complete_requires_all_parts_witness :
    clientComplete
        [⟨1, "a1"⟩, ⟨2, "a2"⟩, ⟨4, "a4"⟩, ⟨5, "a5"⟩] 5 =
      Except.error (UploadError.incompleteUpload
        (5 - (List.length [(⟨1, "a1"⟩ : PartResult), ⟨2, "a2"⟩, ⟨4, "a4"⟩,
          ⟨5, "a5"⟩])) 5) ∧
    3 ∈ missingPartNumbers
        (List.map PartResult.partNumber
          [⟨1, "a1"⟩, ⟨2, "a2"⟩, ⟨4, "a4"⟩, ⟨5, "a5"⟩]) 5 :=
  (c5_complete_requires_all_parts
      [⟨1, "a1"⟩, ⟨2, "a2"⟩, ⟨4, "a4"⟩, ⟨5, "a5"⟩] 5
      (by decide) (by decide)).2.1 3 (by decide) (by decide) (by decide)

/-- C6: multipart part sizing is 5 MiB for files of at most 100 MiB,
10 MiB for files above 100 MiB up to 500 MiB, and 25 MiB above 500 MiB;
the part count is the ceiling of `totalBytes / partSize` (characterised by
the two ceiling bounds below); and whenever the part count exceeds 10,000,
planning fails with the fatal `tooManyParts` error and zero part PUTs are
attempted. -/
theorem c6_part_sizing_and_ceiling (s : Nat) :
    (s ≤ 100 * MiB → partSizeFor s = 5 * MiB) ∧
    (100 * MiB < s → s ≤ 500 * MiB → partSizeFor s = 10 * MiB) ∧
    (500 * MiB < s → partSizeFor s = 25 * MiB) ∧
    (0 < s →
      s ≤ numPartsFor s * partSizeFor s ∧
      (numPartsFor s - 1) * partSizeFor s < s) ∧
    (numPartsFor s > 10000 →
      planMultipart s = Except.error (UploadError.tooManyParts (numPartsFor s)) ∧
      multipartPartPutsAttempted s = 0) := by
  refine ⟨?_, ?_, ?_, ?_, ?_⟩
  · intro h
    simp only [partSizeFor, MiB] at *
    split_ifs <;> omega
  · intro h1 h2
    simp only [partSizeFor, MiB] at *
    split_ifs <;> omega
  · intro h
    simp only [partSizeFor, MiB] at *
    split_ifs <;> omega
  · intro hpos
    by_cases hbig : s > 500 * MiB
    · have hp : partSizeFor s = 25 * MiB := by
        simp only [partSizeFor, MiB] at *
        split_ifs
        omega
      simp only [numPartsFor, hp, MiB] at *
      omega
    · by_cases hmed : s > 100 * MiB
      · have hp : partSizeFor s = 10 * MiB := by
          simp only [partSizeFor, MiB] at *
          split_ifs
          omega
        simp only [numPartsFor, hp, MiB] at *
        omega
      · have hp : partSizeFor s = 5 * MiB := by
          simp only [partSizeFor, MiB] at *
          split_ifs
          omega
        simp only [numPartsFor, hp, MiB] at *
        omega
  · intro h
    simp [planMultipart, multipartPartPutsAttempted, h]

/-- C6 witness: a 300 MiB file gets 10 MiB parts and 30 parts (satisfying
the ceiling bounds), while a 300 GiB file would need 12,288 parts, so the
plan fails with the fatal error before any part is sent. -/
theorem c6_part_sizing_and_ceiling_witness :
    (partSizeFor (300 * MiB) = 10 * MiB ∧ numPartsFor (300 * MiB) = 30) ∧
    (300 * MiB ≤ numPartsFor (300 * MiB) * partSizeFor (300 * MiB) ∧
      (numPartsFor (300 * MiB) - 1) * partSizeFor (300 * MiB) < 300 * MiB) ∧
    (planMultipart (300 * 1024 * MiB) =
        Except.error (UploadError.tooManyParts (numPartsFor (300 * 1024 * MiB))) ∧
      multipartPartPutsAttempted (300 * 1024 * MiB) = 0) :=
  ⟨⟨(c6_part_sizing_and_ceiling (300 * MiB)).2.1 (by decide) (by decide),
    by decide⟩,
   (c6_part_sizing_and_ceiling (300 * MiB)).2.2.2.1 (by decide),
   (c6_part_sizing_and_ceiling (300 * 1024 * MiB)).2.2.2.2 (by decide)⟩

/-- C7: on a 1000-byte local object, `Range: bytes=100-199` is answered
206 with exactly the 100 bytes at offsets 100–199,
`Content-Range: bytes 100-199/1000` and `Content-Length: 100`; a request
with no Range header is answered 200 with the whole file and its total
length; and an open-ended `bytes=s-` (for any decimal start token `s`
within the file) is served from offset `s` through the last byte
(`Content-Range: bytes s-999/1000`). -/
theorem c7_range_request_semantics (file : List Nat) (hlen : file.length = 1000)
    (sTok : List Char) (s : Nat) (hne : sTok ≠ [])
    (hdig : ∀ c ∈ sTok, c.isDigit = true)
    (hval : readDigits sTok 0 = s) (hs : s < 1000) :
    ((streamLocalVideoFile file (some "bytes=100-199".data)).status = 206 ∧
     (streamLocalVideoFile file (some "bytes=100-199".data)).body =
       (file.drop 100).take 100 ∧
     (streamLocalVideoFile file (some "bytes=100-199".data)).body.length = 100 ∧
     (streamLocalVideoFile file (some "bytes=100-199".data)).contentRangeHeader =
       some (some 100, some 199, 1000) ∧
     (streamLocalVideoFile file (some "bytes=100-199".data)).contentLength =
       some 100) ∧
    ((streamLocalVideoFile file none).status = 200 ∧
     (streamLocalVideoFile file none).body = file ∧
     (streamLocalVideoFile file none).contentLength = some 1000) ∧
    ((streamLocalVideoFile file (some (bytesPat ++ sTok ++ ['-']))).status =
       206 ∧
     (streamLocalVideoFile file (some (bytesPat ++ sTok ++ ['-']))).body =
       file.drop s ∧
     (streamLocalVideoFile file
         (some (bytesPat ++ sTok ++ ['-']))).contentRangeHeader =
       some (some (s : Int), some 999, 1000)) := by
  refine ⟨?_, ?_, ?_⟩
  · have hparts : splitOnDash (dropFirstOcc bytesPat "bytes=100-199".data) =
        ["100".data, "199".data] := rfl
    have hresp : streamLocalVideoFile file (some "bytes=100-199".data) =
        { status := 206, contentRangeHeader := some (some 100, some 199, 1000),
          contentLength := some 100, body := (file.drop 100).take 100 } := by
      simp only [streamLocalVideoFile, hlen, hparts]
      have hs100 : rangeStartOf ["100".data, "199".data] = some 100 := rfl
      have he199 : rangeEndOf ["100".data, "199".data] 1000 = some 199 := rfl
      rw [hs100, he199]
      simp only [jsAdd, jsSub, readStreamBytes, StreamResponse.mk.injEq]
      norm_num
      rfl
    rw [hresp]
    refine ⟨rfl, rfl, ?_, rfl, rfl⟩
    simp [List.length_take, List.length_drop, hlen]
  · simp [streamLocalVideoFile, hlen]
  · have hassoc : bytesPat ++ sTok ++ ['-'] = bytesPat ++ (sTok ++ ['-']) :=
      List.append_assoc _ _ _
    have hdrop : dropFirstOcc bytesPat (bytesPat ++ (sTok ++ ['-'])) =
        sTok ++ ['-'] :=
      dropFirstOcc_self_append bytesPat (sTok ++ ['-']) (by simp [bytesPat])
    have hnodash : ∀ c ∈ sTok, c ≠ '-' := by
      intro c hc heq
      have := hdig c hc
      rw [heq] at this
      exact absurd this (by decide)
    have hsplit : splitOnDash (sTok ++ ['-']) = [sTok, []] :=
      splitOnDash_no_dash_append sTok hnodash
    have hstart : rangeStartOf [sTok, []] = some (s : Int) := by
      simp only [rangeStartOf, List.headD]
      rw [jsParseIntChars_digits sTok hne hdig, hval]
    have hend : rangeEndOf [sTok, []] 1000 = some 999 := by
      simp [rangeEndOf]
    have hbody : readStreamBytes file (some (s : Int)) (some 999) =
        file.drop s := by
      simp only [readStreamBytes]
      rw [if_pos (by constructor <;> omega : (0:Int) ≤ (s:Int) ∧ (s:Int) ≤ 999)]
      have htn : ((999 : Int) - s + 1).toNat = 1000 - s := by omega
      have hts : ((s : Int)).toNat = s := by omega
      rw [htn, hts]
      have hlend : (file.drop s).length = 1000 - s := by
        simp [List.length_drop, hlen]
      exact List.take_of_length_le (by omega)
    simp only [streamLocalVideoFile, hassoc, hdrop, hsplit, hlen, hstart, hend,
      hbody]
    exact ⟨trivial, trivial, trivial⟩

/-- C7 witness: on a concrete 1000-byte file, `bytes=100-199` yields 206
with 100 bytes, and `bytes=300-` is served from offset 300 to the end. -/
theorem c7_range_request_semantics_witness :
    (streamLocalVideoFile (List.replicate 1000 7)
        (some "bytes=100-199".data)).status = 206 ∧
    (streamLocalVideoFile (List.replicate 1000 7)
        (some "bytes=100-199".data)).body.length = 100 ∧
    (streamLocalVideoFile (List.replicate 1000 7)
        (some (bytesPat ++ "300".data ++ ['-']))).body =
      (List.replicate 1000 7).drop 300 :=
  ⟨(c7_range_request_semantics (List.replicate 1000 7)
      (List.length_replicate 1000 7)
      "300".data 300 (by decide) (by decide) rfl (by decide)).1.1,
   (c7_range_request_semantics (List.replicate 1000 7)
      (List.length_replicate 1000 7)
      "300".data 300 (by decide) (by decide) rfl (by decide)).1.2.2.1,
   (c7_range_request_semantics (List.replicate 1000 7)
      (List.length_replicate 1000 7)
      "300".data 300 (by decide) (by decide) rfl (by decide)).2.2.2.1⟩

/-- C8: the video route serves the local file when it exists; otherwise,
with the remote store enabled and the object present there, it redirects
to a time-limited (1-hour) signed download URL; otherwise (store disabled,
object absent, or the existence check throwing) it answers 404 — its only
possible outcomes are local stream, signed redirect, and not-found, never
placeholder content. A missing thumbnail, by contrast, is answered with
the default thumbnail file or an inline SVG placeholder. -/
theorem c8_delivery_resolution (localE useS3f tLocalE defaultE : Bool)
    (s3Check tCheck : Except String Bool) (filename : String) :
    (localE = true → videoRouteResolve localE useS3f s3Check filename =
      VideoDelivery.localStream filename) ∧
    (localE = false → useS3f = true → s3Check = Except.ok true →
      videoRouteResolve localE useS3f s3Check filename =
        VideoDelivery.redirect ("uploads/" ++ filename)
          videoPlaybackExpirySeconds) ∧
    (localE = false → (useS3f = false ∨ s3Check ≠ Except.ok true) →
      videoRouteResolve localE useS3f s3Check filename =
        VideoDelivery.notFound) ∧
    (videoRouteResolve localE useS3f s3Check filename =
        VideoDelivery.localStream filename ∨
     videoRouteResolve localE useS3f s3Check filename =
        VideoDelivery.redirect ("uploads/" ++ filename)
          videoPlaybackExpirySeconds ∨
     videoRouteResolve localE useS3f s3Check filename =
        VideoDelivery.notFound) ∧
    (tLocalE = false → (useS3f = false ∨ tCheck ≠ Except.ok true) →
      thumbnailRouteResolve tLocalE useS3f tCheck defaultE filename =
        if defaultE then ThumbDelivery.defaultThumbnail
        else ThumbDelivery.placeholderSvg) := by
  cases localE <;> cases useS3f <;> cases tLocalE <;> cases defaultE <;>
    rcases s3Check with e | b <;> try rcases tCheck with e2 | b2
  all_goals try rcases b with _ | _
  all_goals try rcases b2 with _ | _
  all_goals
    simp_all [videoRouteResolve, thumbnailRouteResolve]

/-- C8 witness: with no local copy, the store enabled and the object in
the remote store, the route redirects to the 1-hour signed URL; with
nothing anywhere it answers 404; and a thumbnail missing everywhere falls
back to the default placeholder. -/
theorem c8_delivery_resolution_witness :
    videoRouteResolve false true (Except.ok true) "m.mp4" =
      VideoDelivery.redirect ("uploads/" ++ "m.mp4")
        videoPlaybackExpirySeconds ∧
    videoRouteResolve false true (Except.ok false) "m.mp4" =
      VideoDelivery.notFound ∧
    thumbnailRouteResolve false true (Except.ok false) true "t.jpg" =
      (if (true : Bool) then ThumbDelivery.defaultThumbnail
        else ThumbDelivery.placeholderSvg) :=
  ⟨(c8_delivery_resolution false true false true (Except.ok true)
      (Except.ok true) "m.mp4").2.1 rfl rfl rfl,
   (c8_delivery_resolution false true false true (Except.ok false)
      (Except.ok false) "m.mp4").2.2.1 rfl (Or.inr (by simp)),
   (c8_delivery_resolution false true false true (Except.ok false)
      (Except.ok false) "t.jpg").2.2.2.2 rfl (Or.inr (by simp))⟩

/-- C9, counterexample: an issued multipart part-upload URL (an upload
URL) has a 3-hour time-to-live, while the signed playback URL the video
route redirects to has only a 1-hour time-to-live, so this upload URL's
TTL is not shorter than this playback URL's TTL. -/
theorem c9_ttl_counterexample :
    partUrlExpirySeconds = 10800 ∧
    videoPlaybackExpirySeconds = 3600 ∧
    videoRouteResolve false true (Except.ok true) "v.mp4" =
      VideoDelivery.redirect "uploads/v.mp4" 3600 ∧
    ¬ partUrlExpirySeconds < videoPlaybackExpirySeconds := by decide

/-- C9, amended: the signed-URL expiry durations are 3 hours for multipart
part-upload URLs, 1 hour for video playback redirect URLs, and 7 days for
thumbnail URLs; so the video playback TTL is shorter than the upload
part-URL TTL, and only the thumbnail TTL is multi-day and exceeds the
upload TTL. -/
theorem c9_ttl_amended :
    partUrlExpirySeconds = 3 * 3600 ∧
    videoPlaybackExpirySeconds = 3600 ∧
    thumbnailExpirySeconds = 7 * 24 * 3600 ∧
    videoPlaybackExpirySeconds < partUrlExpirySeconds ∧
    partUrlExpirySeconds < thumbnailExpirySeconds := by decide


set_option maxRecDepth 8000 in
/-- C10, counterexample: at the claim's own inputs on a 1000-byte file —
`bytes=2000-` (start past the file, end defaulting to 999 < 2000),
`bytes=500-100` (start exceeding end) and `bytes=abc-` (NaN start) — the
`fs.createReadStream` constructor throws `ERR_OUT_OF_RANGE` before
`res.writeHead(206, …)` runs, the route's catch answers 500, and the
response is not 206 as claimed. -/
theorem c10_responds_206_counterexample :
    videoRouteLocalStream (List.replicate 1000 0) (some "bytes=2000-".data) =
      errorProcessingResponse ∧
    (videoRouteLocalStream (List.replicate 1000 0)
        (some "bytes=2000-".data)).status = 500 ∧
    (videoRouteLocalStream (List.replicate 1000 0)
        (some "bytes=500-100".data)).status = 500 ∧
    (videoRouteLocalStream (List.replicate 1000 0)
        (some "bytes=abc-".data)).status = 500 ∧
    ¬ (videoRouteLocalStream (List.replicate 1000 0)
        (some "bytes=2000-".data)).status = 206 := by decide

set_option maxRecDepth 8000 in
/-- C10, amended: the streaming helper itself performs no validation of
the parsed Range against the file — no request is ever answered 416, and
any range whose offsets pass the Node stream constructor's own checks
(integer start and end with 0 ≤ start ≤ end) is answered 206 with the
unvalidated offsets echoed into `Content-Range`, even when start is at or
past the file size (e.g. `bytes=2000-3000` on a 1000-byte file). But a
NaN start or a start exceeding its end makes `fs.createReadStream` throw
before `writeHead(206)`, so those requests — including `bytes=2000-`,
whose end defaults to 999 — are answered 500 by the route's catch, not
206. -/
theorem c10_no_range_validation_amended (file : List Nat)
    (header : List Char) (s e : Int)
    (hs : rangeStartOf (splitOnDash (dropFirstOcc bytesPat header)) = some s)
    (he : rangeEndOf (splitOnDash (dropFirstOcc bytesPat header))
        file.length = some e)
    (h0 : 0 ≤ s) (hse : s ≤ e) :
    ((videoRouteLocalStream file (some header)).status = 206 ∧
     (videoRouteLocalStream file (some header)).contentRangeHeader =
       some (some s, some e, file.length)) ∧
    (∀ h2 : List Char,
      (videoRouteLocalStream file (some h2)).status = 206 ∨
      (videoRouteLocalStream file (some h2)).status = 500) ∧
    (∀ h2 : Option (List Char),
      (videoRouteLocalStream file h2).status ≠ 416) ∧
    (∀ h2 : List Char,
      rangeStartOf (splitOnDash (dropFirstOcc bytesPat h2)) = none →
      videoRouteLocalStream file (some h2) = errorProcessingResponse) ∧
    (∀ (h2 : List Char) (s2 e2 : Int),
      rangeStartOf (splitOnDash (dropFirstOcc bytesPat h2)) = some s2 →
      rangeEndOf (splitOnDash (dropFirstOcc bytesPat h2)) file.length =
        some e2 →
      e2 < s2 →
      videoRouteLocalStream file (some h2) = errorProcessingResponse) ∧
    ((videoRouteLocalStream (List.replicate 1000 0)
        (some "bytes=2000-3000".data)).status = 206 ∧
     (videoRouteLocalStream (List.replicate 1000 0)
        (some "bytes=2000-3000".data)).contentRangeHeader =
       some (some 2000, some 3000, 1000) ∧
     (videoRouteLocalStream (List.replicate 1000 0)
        (some "bytes=2000-3000".data)).body = []) := by
  refine ⟨?_, ?_, ?_, ?_, ?_, by decide⟩
  · have hcr : createReadStream file (some s) (some e) =
        Except.ok (readStreamBytes file (some s) (some e)) := by
      simp only [createReadStream, validStreamBound]
      rw [if_neg, if_neg, if_neg]
      · omega
      · simp only [decide_eq_false_iff_not]
        omega
      · simp only [decide_eq_false_iff_not]
        omega
    simp only [videoRouteLocalStream, streamLocalVideoFileChecked, hs, he, hcr]
    exact ⟨trivial, trivial⟩
  · intro h2
    simp only [videoRouteLocalStream, streamLocalVideoFileChecked]
    rcases createReadStream file
        (rangeStartOf (splitOnDash (dropFirstOcc bytesPat h2)))
        (rangeEndOf (splitOnDash (dropFirstOcc bytesPat h2)) file.length)
      with err | bytes
    · right; rfl
    · left; rfl
  · intro h2
    cases h2 with
    | none => simp [videoRouteLocalStream, streamLocalVideoFileChecked]
    | some r =>
      simp only [videoRouteLocalStream, streamLocalVideoFileChecked]
      rcases createReadStream file
          (rangeStartOf (splitOnDash (dropFirstOcc bytesPat r)))
          (rangeEndOf (splitOnDash (dropFirstOcc bytesPat r)) file.length)
        with err | bytes
      · simp [errorProcessingResponse]
      · simp
  · intro h2 hnan
    simp only [videoRouteLocalStream, streamLocalVideoFileChecked, hnan,
      createReadStream, validStreamBound]
    rfl
  · intro h2 s2 e2 hs2 he2 hlt
    have hcr : createReadStream file (some s2) (some e2) =
        Except.error "ERR_OUT_OF_RANGE: start > end" ∨
        createReadStream file (some s2) (some e2) =
          Except.error "ERR_OUT_OF_RANGE: start" ∨
        createReadStream file (some s2) (some e2) =
          Except.error "ERR_OUT_OF_RANGE: end" := by
      simp only [createReadStream, validStreamBound]
      by_cases hv1 : (0:Int) ≤ s2
      · by_cases hv2 : (0:Int) ≤ e2
        · left
          rw [if_neg (by simp [hv1]), if_neg (by simp [hv2]), if_pos (by omega)]
        · right; right
          rw [if_neg (by simp [hv1]), if_pos (by simp [hv2])]
      · right; left
        rw [if_pos (by simp [hv1])]
    simp only [videoRouteLocalStream, streamLocalVideoFileChecked, hs2, he2]
    rcases hcr with hcr | hcr | hcr <;> rw [hcr]

set_option maxRecDepth 8000 in
/-- C10 witness: on a concrete 1000-byte file, the in-bounds-for-Node but
past-end-of-file range `bytes=2000-3000` is answered 206 with the
unvalidated offsets echoed. -/
theorem c10_no_range_validation_amended_witness :
    (videoRouteLocalStream (List.replicate 1000 0)
        (some "bytes=2000-3000".data)).status = 206 ∧
    (videoRouteLocalStream (List.replicate 1000 0)
        (some "bytes=2000-3000".data)).contentRangeHeader =
      some (some 2000, some 3000, (List.replicate 1000 (0 : Nat)).length) :=
  ⟨((c10_no_range_validation_amended (List.replicate 1000 0)
      "bytes=2000-3000".data 2000 3000 rfl rfl (by decide) (by decide)).1).1,
   ((c10_no_range_validation_amended (List.replicate 1000 0)
      "bytes=2000-3000".data 2000 3000 rfl rfl (by decide) (by decide)).1).2⟩
